import Mathlib

/-!
Shallow embedding of `app/main.py` (AI personality quiz service): an
in-memory session store keyed by opaque ids, a chat endpoint that appends
a user turn and an assistant turn to a session history, and an extract
endpoint that asks an LLM for a JSON personality read with a null-template
fallback.

Modelling conventions:
* The LLM transport is an oracle parameter.  For the reply generator it is
  a function `History → String` (the text of `response.content[0].text`);
  for the extractor the only use the code makes of the returned text is
  `json.loads`, so the oracle is the parse outcome `Option Json`
  (`none` = `json.JSONDecodeError`, `some v` = the parsed value).
* `str(uuid.uuid4())` is an oracle parameter `fresh : String`; freshness
  (no collision with stored keys) is a hypothesis where a claim needs it.
* `os.getenv("ANTHROPIC_API_KEY")` is a parameter `Option String`; Python
  truthiness (`if not api_key`) makes both `None` and `""` falsy.
* The global dict `SESSIONS` is an association list threaded through the
  handlers; `datetime.datetime.utcnow()` is an oracle `UtcTime`.
-/

namespace Quiz

/-- One message of a session history: Python dict `{"role": r, "content": c}`. -/
structure Turn where
  role : String
  content : String
deriving Repr, DecidableEq

abbrev History := List Turn

/-- The global `SESSIONS : dict[str, SessionState]`, as an association list
(`SessionState` holds just the history list). -/
abbrev Store := List (String × History)

/-- Python `dict` lookup (`SESSIONS[k]` / `k in SESSIONS`). -/
def Store.find : Store → String → Option History
  | [], _ => none
  | (k, h) :: rest, key => if k = key then some h else Store.find rest key

/-- Python `dict` assignment `SESSIONS[k] = v`: replace the binding if the
key is present, else append it. -/
def Store.set : Store → String → History → Store
  | [], key, v => [(key, v)]
  | (k, h) :: rest, key, v =>
    if k = key then (key, v) :: rest else (k, h) :: Store.set rest key v

/-- Python truthiness of an optional string: `None` and `""` are falsy. -/
def truthyStr : Option String → Bool
  | none => false
  | some s => if s = "" then false else true

/-- JSON values, as `json.loads` produces them (numbers as rationals). -/
inductive Json where
  | null : Json
  | bool : Bool → Json
  | num : Rat → Json
  | str : String → Json
  | arr : List Json → Json
  | obj : List (String × Json) → Json
deriving Repr

/-- Field lookup in a parsed JSON object body. -/
def lookupField : List (String × Json) → String → Option Json
  | [], _ => none
  | (k, v) :: rest, key => if k = key then some v else lookupField rest key

/-- Value of a key in a JSON object (`none` on non-objects). -/
def Json.getObjVal? : Json → String → Option Json
  | .obj fields, key => lookupField fields key
  | _, _ => none

/-- Key list of a JSON object (empty on non-objects). -/
def Json.objKeys : Json → List String
  | .obj fields => fields.map Prod.fst
  | _ => []

/-- The configured personality dimensions: `DIMENSIONS` from `app/main.py`,
a fixed ordered list of (key, descriptive prompt) pairs. -/
def DIMENSIONS : List (String × String) :=
  [ ("relationship_with_family",
     "What is this person\x27s relationship with their family like? Write a short narrative read about the dynamics, closeness, tension, and role family plays in their identity."),
    ("relationship_with_self",
     "How does this person relate to themselves? Describe their inner dialogue, self-worth, self-criticism, and how comfortable they are being alone with their own thoughts."),
    ("sources_of_escape_and_fun",
     "Where does this person go -- physically, mentally, or emotionally -- when they need to escape or have fun? What activities or places recharge them?"),
    ("what_makes_them_happy",
     "What genuinely makes this person happy? Not what they think should make them happy, but what actually lights them up based on the conversation."),
    ("what_makes_them_sad",
     "What makes this person sad or heavy? What losses, disappointments, or unmet needs weigh on them?"),
    ("what_they_value_in_people",
     "What qualities does this person look for and value most in other people? What earns their trust and respect?"),
    ("values_above_average",
     "What values does this person hold MORE strongly than the general population? Things they prioritize that most people would not rank as high."),
    ("values_below_average",
     "What values does the general population hold that this person does NOT prioritize as much? Things most people care about that this person is relatively indifferent to."),
    ("emotional_awareness",
     "How aware is this person of their own emotions? Do they process feelings openly or suppress them? Describe their emotional intelligence and blind spots."),
    ("identity_and_self_image",
     "How does this person see themselves, and how do they want to be seen? What is the gap between their self-image and reality?"),
    ("moral_framework",
     "What constitutes right and wrong for this person? Where are they rigid and where are they flexible? What moral hills would they die on?"),
    ("response_to_adversity",
     "How does this person handle setbacks, frustration, and pain? Do they fight, withdraw, adapt, or something else?"),
    ("need_for_control",
     "How important is it for this person that the world matches their expectations? How do they handle uncertainty and disorder?"),
    ("hidden_drivers",
     "What drives this person beneath the surface -- motivations they may not be fully conscious of? Unspoken needs, fears, or desires inferred from the conversation.") ]

/-- The null per-dimension record of the fallback template. -/
def nullAssessment : Json :=
  Json.obj [("assessment", Json.null), ("confidence", Json.num 0),
            ("supporting_evidence", Json.arr [])]

/-- `build_dimension_template`: every dimension key mapped to the null
record `{assessment: None, confidence: 0.0, supporting_evidence: []}`. -/
def build_dimension_template : Json :=
  Json.obj (DIMENSIONS.map fun p => (p.1, nullAssessment))

/-- The literal offline fallback sentence of `generate_ai_reply`. -/
def FALLBACK_REPLY : String :=
  "Thanks for sharing. Could you tell me about a recent piece of media that really touched your soul?"

/-- `generate_ai_reply(history)`: returns the fixed fallback sentence when no
API key is configured, else the LLM oracle applied to the history. -/
def generate_ai_reply (apiKey : Option String) (llm : History → String)
    (history : History) : String :=
  if truthyStr apiKey then llm history else FALLBACK_REPLY

/-- The flat transcript built by `extract_dimensions`:
`"\n".join(f"{item[role]}: {item[content]}" for item in history)`. -/
def transcript (history : History) : String :=
  String.intercalate "\n" (history.map fun t => t.role ++ ": " ++ t.content)

/-- `extract_dimensions(history)`: with no API key return the template;
otherwise call the LLM once on a prompt embedding the serialized transcript
and `json.loads` its text (`llmParse` maps the transcript to the parse
outcome), returning the template exactly on `JSONDecodeError` and the
parsed value — whatever its shape — otherwise. -/
def extract_dimensions (apiKey : Option String)
    (llmParse : String → Option Json) (history : History) : Json :=
  if !truthyStr apiKey then build_dimension_template
  else
    match llmParse (transcript history) with
    | none => build_dimension_template
    | some v => v

/-- `get_session(session_id)`: an id that is truthy and present resolves to
its existing session; anything else creates and registers an empty session
under the freshly generated id. -/
def get_session (fresh : String) (session_id : Option String) (store : Store) :
    String × History × Store :=
  match session_id with
  | some sid =>
    if sid ≠ "" then
      match store.find sid with
      | some h => (sid, h, store)
      | none => (fresh, [], store.set fresh [])
    else (fresh, [], store.set fresh [])
  | none => (fresh, [], store.set fresh [])

/-- The body of `ChatResponse`. -/
structure ChatResponse where
  session_id : String
  message : String
deriving Repr, DecidableEq

/-- The chat handler: resolve the session, append the user turn, generate a
reply over the updated history, append the assistant turn, and return the
reply with the (possibly fresh) session id. -/
def chat (fresh : String) (apiKey : Option String) (llm : History → String)
    (payload_sid : Option String) (message : String) (store : Store) :
    ChatResponse × Store :=
  let r := get_session fresh payload_sid store
  let hist1 := r.2.1 ++ [⟨"user", message⟩]
  let reply := generate_ai_reply apiKey llm hist1
  let hist2 := hist1 ++ [⟨"assistant", reply⟩]
  (⟨r.1, reply⟩, r.2.2.set r.1 hist2)

/-- `datetime.datetime.utcnow()` as an oracle value. -/
structure UtcTime where
  year : Nat
  month : Nat
  day : Nat
  hour : Nat
  minute : Nat
  second : Nat
  microsecond : Nat
deriving Repr, DecidableEq

/-- The decimal digit character of `n % 10`. -/
def digitChar10 (n : Nat) : Char := Char.ofNat (48 + n % 10)

/-- Fixed-width zero-padded decimal rendering (`%0wd` for in-range values). -/
def padNat : Nat → Nat → List Char
  | 0, _ => []
  | w + 1, n => padNat w (n / 10) ++ [digitChar10 n]

/-- `datetime.isoformat()` for a UTC naive datetime:
`YYYY-MM-DDTHH:MM:SS` plus `.ffffff` exactly when the microsecond field is
nonzero (Python omits the fraction when it is zero). -/
def isoformatChars (t : UtcTime) : List Char :=
  padNat 4 t.year ++ ['-'] ++ padNat 2 t.month ++ ['-'] ++
  padNat 2 t.day ++ ['T'] ++ padNat 2 t.hour ++ [':'] ++
  padNat 2 t.minute ++ [':'] ++ padNat 2 t.second ++
  (if t.microsecond = 0 then [] else '.' :: padNat 6 t.microsecond)

/-- `datetime.isoformat()` as a string. -/
def isoformat (t : UtcTime) : String := String.mk (isoformatChars t)

/-- Successful extract response body. -/
structure ExtractOk where
  interview_id : String
  timestamp : String
  dimensions : Json
deriving Repr

/-- Result of the extract handler: a 404 error body or a 200 payload. -/
inductive ExtractResult where
  | err : Nat → String → ExtractResult
  | ok : Nat → ExtractOk → ExtractResult
deriving Repr

/-- The extract handler: unknown session ids get a 404 with the literal
error body; known sessions get `{interview_id, timestamp, dimensions}` with
`timestamp = utcnow().isoformat() + "Z"`.  The store is returned unchanged:
the handler never writes to `SESSIONS` or to any history. -/
def extract (apiKey : Option String) (llmParse : String → Option Json)
    (now : UtcTime) (payload_sid : String) (store : Store) :
    ExtractResult × Store :=
  match store.find payload_sid with
  | none => (.err 404 "Unknown session.", store)
  | some hist =>
    (.ok 200 ⟨payload_sid, isoformat now ++ "Z",
              extract_dimensions apiKey llmParse hist⟩, store)

/-- A history of even length strictly alternating user/assistant roles,
starting with "user". -/
def alternating : History → Bool
  | [] => true
  | u :: a :: rest =>
    if u.role = "user" ∧ a.role = "assistant" then alternating rest else false
  | _ => false

/-- Tail of the fractional-seconds part: zero or more digits then `Z`. -/
def digitsThenZ : List Char → Bool
  | [] => false
  | [c] => c = 'Z'
  | c :: rest => c.isDigit && digitsThenZ rest

/-- What may follow `YYYY-MM-DDTHH:MM:SS`: either `Z`, or `.` then at least
one digit then `Z`. -/
def secTail : List Char → Bool
  | ['Z'] => true
  | '.' :: c :: rest => c.isDigit && digitsThenZ (c :: rest)
  | _ => false

/-- Character-level check for a UTC ISO-8601 instant with trailing `Z`:
`YYYY-MM-DDTHH:MM:SS(.ffffff)?Z` with all marked positions decimal digits. -/
def isoCharsOk : List Char → Bool
  | y1 :: y2 :: y3 :: y4 :: '-' :: m1 :: m2 :: '-' ::
    d1 :: d2 :: 'T' :: h1 :: h2 :: ':' ::
    n1 :: n2 :: ':' :: s1 :: s2 :: rest =>
    ([y1, y2, y3, y4, m1, m2, d1, d2, h1, h2, n1, n2, s1, s2].all Char.isDigit)
      && secTail rest
  | _ => false

/-- A string is a UTC ISO-8601 instant ending in `Z`. -/
def isIso8601UtcZ (s : String) : Bool := isoCharsOk s.data

/-! ### Store lemmas -/

theorem find_set_self (s : Store) (key : String) (v : History) :
    (s.set key v).find key = some v := by
  induction s with
  | nil => simp [Store.set, Store.find]
  | cons p rest ih =>
    obtain ⟨k, h⟩ := p
    by_cases hk : k = key
    · simp [Store.set, Store.find, hk]
    · simp [Store.set, Store.find, hk, ih]

theorem find_set_ne (s : Store) (key id : String) (v : History) (hne : key ≠ id) :
    (s.set key v).find id = s.find id := by
  induction s with
  | nil => simp [Store.set, Store.find, hne]
  | cons p rest ih =>
    obtain ⟨k, h⟩ := p
    by_cases hk : k = key
    · subst hk
      simp [Store.set, Store.find, hne, ih]
    · by_cases hid : k = id
      · subst hid
        simp [Store.set, Store.find, hk]
      · simp [Store.set, Store.find, hk, hid, ih]

/-! ### Claims about the dimension extractor (C1, C2) -/

/-- Claim C2, counterexample: with a credential configured and the LLM
response text `"[]"` — valid JSON but not an object — `extract_dimensions`
returns the parsed empty array, not the null template.  The claim's third
case ("parses as valid JSON but is not a JSON object") does not yield the
template. -/
theorem C2_counterexample :
    extract_dimensions (some "k") (fun _ => some (Json.arr [])) [] = Json.arr [] ∧
    Json.arr [] ≠ build_dimension_template := by
  refine ⟨rfl, ?_⟩
  simp [build_dimension_template]

/-- Claim C2 (amended): `extract_dimensions` returns the null template in
exactly two cases — no credential configured, or the response text is
malformed JSON (`json.loads` raises) — and any successfully parsed JSON
value, object or not, is returned as-is. -/
theorem C2_extract_dimensions_cases (apiKey : Option String)
    (llmParse : String → Option Json) (hist : History) :
    (truthyStr apiKey = false ∨ llmParse (transcript hist) = none →
      extract_dimensions apiKey llmParse hist = build_dimension_template) ∧
    (∀ v, truthyStr apiKey = true → llmParse (transcript hist) = some v →
      extract_dimensions apiKey llmParse hist = v) := by
  constructor
  · rintro (h | h) <;> simp [extract_dimensions, h]
  · intro v h hv
    simp [extract_dimensions, h, hv]

/-- Witness for C2's amended theorem at concrete inputs: no credential gives
the template, and a parsed JSON number passes through unchanged. -/
theorem C2_witness :
    extract_dimensions none (fun _ => none) [] = build_dimension_template ∧
    extract_dimensions (some "k") (fun _ => some (Json.num 3)) [] = Json.num 3 :=
  ⟨(C2_extract_dimensions_cases none (fun _ => none) []).1 (Or.inl rfl),
   (C2_extract_dimensions_cases (some "k") (fun _ => some (Json.num 3)) []).2
     (Json.num 3) rfl rfl⟩

/-- Claim C1, counterexample: with a credential configured, an LLM response
that parses as a JSON object with a single key `"foo"` is returned as-is by
the dimension extractor, so the key set of the returned mapping is
`["foo"]`, not the configured dimension key set — the claimed invariant
fails for well-formed JSON content with other keys. -/
theorem C1_counterexample :
    Json.objKeys (extract_dimensions (some "k")
      (fun _ => some (Json.obj [("foo", Json.null)])) [⟨"user", "Hello"⟩]) = ["foo"] ∧
    (["foo"] : List String) ≠ DIMENSIONS.map Prod.fst := by
  refine ⟨rfl, ?_⟩
  decide

/-- Claim C1 (amended): the key set of the extractor's result equals the
configured dimension key set whenever the template fallback applies, i.e.
when no credential is configured or the response text is malformed JSON; a
successfully parsed value passes through uninspected and may have any key
set. -/
theorem C1_template_keys (apiKey : Option String) (llmParse : String → Option Json)
    (hist : History)
    (h : truthyStr apiKey = false ∨ llmParse (transcript hist) = none) :
    Json.objKeys (extract_dimensions apiKey llmParse hist) = DIMENSIONS.map Prod.fst := by
  rcases h with h | h <;>
    simp [extract_dimensions, h, build_dimension_template, Json.objKeys, List.map_map,
      Function.comp]

/-- Witness for C1's amended theorem: no credential configured. -/
theorem C1_witness :
    Json.objKeys (extract_dimensions none (fun _ => none) []) = DIMENSIONS.map Prod.fst :=
  C1_template_keys none (fun _ => none) [] (Or.inl rfl)

/-! ### Claims about the extract endpoint (C4, C7) -/

/-- Claim C4: extracting with a session id that was never registered returns
HTTP 404 with body `{"error": "Unknown session."}`, leaves the store
unchanged, and does not register the id. -/
theorem C4_unknown_extract (apiKey : Option String) (llmParse : String → Option Json)
    (now : UtcTime) (sid : String) (store : Store) (h : store.find sid = none) :
    extract apiKey llmParse now sid store =
      (ExtractResult.err 404 "Unknown session.", store) ∧
    ((extract apiKey llmParse now sid store).2).find sid = none := by
  simp [extract, h]

/-- Witness for C4 at a concrete unknown id on the empty store. -/
theorem C4_witness :
    extract none (fun _ => none) ⟨2026, 1, 1, 0, 0, 0, 0⟩ "nope" [] =
      (ExtractResult.err 404 "Unknown session.", []) :=
  (C4_unknown_extract none (fun _ => none) ⟨2026, 1, 1, 0, 0, 0, 0⟩ "nope" [] rfl).1

/-- Claim C7: the extract handler has no side effect on session state — the
store after the call is the store before it, and in particular the addressed
session's stored history is unchanged, for every store and history. -/
theorem C7_extract_no_side_effect (apiKey : Option String)
    (llmParse : String → Option Json) (now : UtcTime) (sid : String) (store : Store) :
    (extract apiKey llmParse now sid store).2 = store ∧
    ((extract apiKey llmParse now sid store).2).find sid = store.find sid := by
  unfold extract
  cases h : store.find sid <;> simp [h]

/-! ### Offline mode (C3) -/

theorem lookupField_const (l : List (String × String)) (c : Json) (key : String)
    (h : key ∈ l.map Prod.fst) :
    lookupField (l.map fun p => (p.1, c)) key = some c := by
  induction l with
  | nil => simp at h
  | cons p rest ih =>
    by_cases hk : p.1 = key
    · simp [lookupField, hk]
    · simp only [List.map_cons, List.mem_cons] at h ⊢
      rcases h with h | h
      · exact absurd h.symm hk
      · simp [lookupField, hk, ih h]

theorem template_lookup (key : String) (h : key ∈ DIMENSIONS.map Prod.fst) :
    build_dimension_template.getObjVal? key = some nullAssessment := by
  simpa [build_dimension_template, Json.getObjVal?] using
    lookupField_const DIMENSIONS nullAssessment key h

/-- Claim C3: with no LLM credential configured (the env var unset or
empty), every chat call returns the fixed literal fallback sentence as its
message — for every history and session — and the dimension extractor
always returns the null template, in which every configured dimension key
maps to `{assessment: null, confidence: 0.0, supporting_evidence: []}`. -/
theorem C3_offline (apiKey : Option String) (hak : truthyStr apiKey = false)
    (fresh : String) (llm : History → String) (sid : Option String) (msg : String)
    (store : Store) (llmParse : String → Option Json) (hist : History) :
    (chat fresh apiKey llm sid msg store).1.message = FALLBACK_REPLY ∧
    extract_dimensions apiKey llmParse hist = build_dimension_template ∧
    ∀ p ∈ DIMENSIONS,
      (extract_dimensions apiKey llmParse hist).getObjVal? p.1 = some nullAssessment := by
  have hext : extract_dimensions apiKey llmParse hist = build_dimension_template := by
    simp [extract_dimensions, hak]
  refine ⟨?_, hext, ?_⟩
  · simp [chat, generate_ai_reply, hak]
  · intro p hp
    rw [hext]
    exact template_lookup p.1 (List.mem_map_of_mem Prod.fst hp)

/-- Witness for C3 with no key, a concrete message and an empty store. -/
theorem C3_witness :
    (chat "s1" none (fun _ => "") none "Hi" []).1.message = FALLBACK_REPLY ∧
    extract_dimensions none (fun _ => none) [] = build_dimension_template ∧
    ∀ p ∈ DIMENSIONS,
      (extract_dimensions none (fun _ => none) []).getObjVal? p.1 = some nullAssessment :=
  C3_offline none rfl "s1" (fun _ => "") none "Hi" [] (fun _ => none) []

/-! ### Chat handler unfolding lemmas -/

theorem chat_fresh_eq (fresh : String) (apiKey : Option String) (llm : History → String)
    (msg : String) (store : Store) :
    chat fresh apiKey llm none msg store =
      (⟨fresh, generate_ai_reply apiKey llm [⟨"user", msg⟩]⟩,
       (store.set fresh []).set fresh
         [⟨"user", msg⟩, ⟨"assistant", generate_ai_reply apiKey llm [⟨"user", msg⟩]⟩]) := by
  simp [chat, get_session]

theorem chat_known_eq (fresh : String) (apiKey : Option String) (llm : History → String)
    (sid : String) (msg : String) (store : Store) (hist : History)
    (hsid : sid ≠ "") (hfind : store.find sid = some hist) :
    chat fresh apiKey llm (some sid) msg store =
      (⟨sid, generate_ai_reply apiKey llm (hist ++ [⟨"user", msg⟩])⟩,
       store.set sid (hist ++ [⟨"user", msg⟩,
         ⟨"assistant", generate_ai_reply apiKey llm (hist ++ [⟨"user", msg⟩])⟩])) := by
  simp [chat, get_session, hsid, hfind]

/-! ### Session creation and append behavior (C5, C6) -/

/-- Claim C5: a chat call with no session id returns the freshly generated
id (hypothesized not to collide with any stored key, as for a new UUID) and
registers exactly the two new turns under it; a second chat call supplying
that id appends its user and assistant turns after the existing two turns,
which remain in order as a prefix of the stored history. -/
theorem C5_chat_append (fresh1 fresh2 : String) (apiKey : Option String)
    (llm : History → String) (msg1 msg2 : String) (store : Store)
    (hm1 : msg1 ≠ "") (hm2 : msg2 ≠ "")
    (hfresh : store.find fresh1 = none) (hne : fresh1 ≠ "") :
    (chat fresh1 apiKey llm none msg1 store).1.session_id = fresh1 ∧
    (chat fresh1 apiKey llm none msg1 store).2.find fresh1 =
      some [⟨"user", msg1⟩,
            ⟨"assistant", generate_ai_reply apiKey llm [⟨"user", msg1⟩]⟩] ∧
    (chat fresh2 apiKey llm (some fresh1) msg2
        (chat fresh1 apiKey llm none msg1 store).2).1.session_id = fresh1 ∧
    (chat fresh2 apiKey llm (some fresh1) msg2
        (chat fresh1 apiKey llm none msg1 store).2).2.find fresh1 =
      some ([⟨"user", msg1⟩,
             ⟨"assistant", generate_ai_reply apiKey llm [⟨"user", msg1⟩]⟩] ++
            [⟨"user", msg2⟩,
             ⟨"assistant", generate_ai_reply apiKey llm
               ([⟨"user", msg1⟩,
                 ⟨"assistant", generate_ai_reply apiKey llm [⟨"user", msg1⟩]⟩] ++
                [⟨"user", msg2⟩])⟩]) := by
  have h1 := chat_fresh_eq fresh1 apiKey llm msg1 store
  have hfind1 : (chat fresh1 apiKey llm none msg1 store).2.find fresh1 =
      some [⟨"user", msg1⟩,
            ⟨"assistant", generate_ai_reply apiKey llm [⟨"user", msg1⟩]⟩] := by
    rw [h1]
    exact find_set_self _ _ _
  have h2 := chat_known_eq fresh2 apiKey llm fresh1 msg2
    (chat fresh1 apiKey llm none msg1 store).2 _ hne hfind1
  refine ⟨by rw [h1], hfind1, by rw [h2], ?_⟩
  rw [h2]
  simpa using find_set_self (chat fresh1 apiKey llm none msg1 store).2 fresh1 _

/-- Witness for C5 with concrete fresh ids, no key and two messages. -/
theorem C5_witness :
    (chat "s1" none (fun _ => "") none "Hello" []).1.session_id = "s1" ∧
    (chat "s1" none (fun _ => "") none "Hello" []).2.find "s1" =
      some [⟨"user", "Hello"⟩,
            ⟨"assistant", generate_ai_reply none (fun _ => "") [⟨"user", "Hello"⟩]⟩] ∧
    (chat "s2" none (fun _ => "") (some "s1") "Bye"
        (chat "s1" none (fun _ => "") none "Hello" []).2).1.session_id = "s1" ∧
    (chat "s2" none (fun _ => "") (some "s1") "Bye"
        (chat "s1" none (fun _ => "") none "Hello" []).2).2.find "s1" =
      some ([⟨"user", "Hello"⟩,
             ⟨"assistant", generate_ai_reply none (fun _ => "") [⟨"user", "Hello"⟩]⟩] ++
            [⟨"user", "Bye"⟩,
             ⟨"assistant", generate_ai_reply none (fun _ => "")
               ([⟨"user", "Hello"⟩,
                 ⟨"assistant",
                  generate_ai_reply none (fun _ => "") [⟨"user", "Hello"⟩]⟩] ++
                [⟨"user", "Bye"⟩])⟩]) :=
  C5_chat_append "s1" "s2" none (fun _ => "") "Hello" "Bye" []
    (by decide) (by decide) rfl (by decide)

/-- Claim C6: a chat call supplying an unknown session id behaves exactly
as one omitting the id — the same fresh id is generated and registered with
the same two turns — the call returns the fresh id, and the supplied
unknown id is never registered. -/
theorem C6_unknown_chat (fresh : String) (apiKey : Option String)
    (llm : History → String) (sid : String) (msg : String) (store : Store)
    (hsid : store.find sid = none) (hne : fresh ≠ sid) :
    chat fresh apiKey llm (some sid) msg store = chat fresh apiKey llm none msg store ∧
    (chat fresh apiKey llm (some sid) msg store).1.session_id = fresh ∧
    ((chat fresh apiKey llm (some sid) msg store).2).find sid = none := by
  have heq : chat fresh apiKey llm (some sid) msg store =
      chat fresh apiKey llm none msg store := by
    by_cases h0 : sid = ""
    · subst h0
      simp [chat, get_session]
    · simp [chat, get_session, h0, hsid]
  refine ⟨heq, ?_, ?_⟩
  · rw [heq, chat_fresh_eq]
  · rw [heq, chat_fresh_eq]
    rw [find_set_ne _ _ _ _ hne, find_set_ne _ _ _ _ hne, hsid]

/-- Witness for C6 at concrete distinct ids on the empty store. -/
theorem C6_witness :
    chat "a" none (fun _ => "") (some "b") "Hi" [] =
      chat "a" none (fun _ => "") none "Hi" [] ∧
    (chat "a" none (fun _ => "") (some "b") "Hi" []).1.session_id = "a" ∧
    ((chat "a" none (fun _ => "") (some "b") "Hi" []).2).find "b" = none :=
  C6_unknown_chat "a" none (fun _ => "") "b" "Hi" [] rfl (by decide)

/-! ### Timestamp well-formedness -/

theorem isDigit_digitChar10 (n : Nat) : (digitChar10 n).isDigit = true := by
  unfold digitChar10
  have hlt : n % 10 < 10 := Nat.mod_lt _ (by norm_num)
  revert hlt
  generalize n % 10 = k
  intro hlt
  interval_cases k <;> decide

theorem padNat_two (n : Nat) :
    padNat 2 n = [digitChar10 (n / 10), digitChar10 n] := rfl

theorem padNat_four (n : Nat) :
    padNat 4 n = [digitChar10 (n / 10 / 10 / 10), digitChar10 (n / 10 / 10),
                  digitChar10 (n / 10), digitChar10 n] := rfl

theorem padNat_six (n : Nat) :
    padNat 6 n = [digitChar10 (n / 10 / 10 / 10 / 10 / 10),
                  digitChar10 (n / 10 / 10 / 10 / 10), digitChar10 (n / 10 / 10 / 10),
                  digitChar10 (n / 10 / 10), digitChar10 (n / 10), digitChar10 n] := rfl

theorem isoformatChars_valid (t : UtcTime) :
    isoCharsOk (isoformatChars t ++ ['Z']) = true := by
  unfold isoformatChars
  by_cases hm : t.microsecond = 0 <;>
    simp [hm, padNat_four, padNat_two, padNat_six, isoCharsOk, secTail, digitsThenZ,
      isDigit_digitChar10, List.append_assoc]

theorem timestamp_data (t : UtcTime) :
    (isoformat t ++ "Z").data = isoformatChars t ++ ['Z'] := by
  rw [String.data_append]
  rfl

/-- Claim C8: sending one chat message (no session id) and immediately
extracting with the returned session id always succeeds: the result is a
200 payload whose `interview_id` is the returned session id and whose
timestamp is a valid UTC ISO-8601 instant ending in `Z`.  The handlers are
total functions, so no exception path exists. -/
theorem C8_roundtrip (fresh : String) (apiKey : Option String)
    (llm : History → String) (llmParse : String → Option Json) (now : UtcTime)
    (msg : String) (store : Store) :
    ∃ v : ExtractOk,
      extract apiKey llmParse now (chat fresh apiKey llm none msg store).1.session_id
          (chat fresh apiKey llm none msg store).2 =
        (ExtractResult.ok 200 v, (chat fresh apiKey llm none msg store).2) ∧
      v.interview_id = (chat fresh apiKey llm none msg store).1.session_id ∧
      isIso8601UtcZ v.timestamp = true ∧
      v.timestamp.data.getLast? = some 'Z' := by
  have hsid : (chat fresh apiKey llm none msg store).1.session_id = fresh := by
    rw [chat_fresh_eq]
  have hfind : ((chat fresh apiKey llm none msg store).2).find fresh =
      some [⟨"user", msg⟩,
            ⟨"assistant", generate_ai_reply apiKey llm [⟨"user", msg⟩]⟩] := by
    rw [chat_fresh_eq]
    exact find_set_self _ _ _
  refine ⟨⟨fresh, isoformat now ++ "Z",
    extract_dimensions apiKey llmParse
      [⟨"user", msg⟩, ⟨"assistant", generate_ai_reply apiKey llm [⟨"user", msg⟩]⟩]⟩,
    ?_, rfl, ?_, ?_⟩
  · rw [hsid]
    simp [extract, hfind]
  · show isIso8601UtcZ (isoformat now ++ "Z") = true
    unfold isIso8601UtcZ
    rw [timestamp_data]
    exact isoformatChars_valid now
  · show (isoformat now ++ "Z").data.getLast? = some 'Z'
    rw [timestamp_data]
    rw [List.getLast?_append_cons]
    rfl

/-! ### Session isolation (C9) -/

/-- Claim C9: a chat call addressed to a registered session A leaves any
distinct session B's stored history unchanged, and therefore the flat
transcript that an extraction of B serializes is unchanged as well — no
turn appended to A ever enters B's history or transcript. -/
theorem C9_isolation (fresh : String) (apiKey : Option String)
    (llm : History → String) (msg : String) (store : Store) (A B : String)
    (hAB : A ≠ B) (histA : History) (hA : store.find A = some histA)
    (hAne : A ≠ "") :
    ((chat fresh apiKey llm (some A) msg store).2).find B = store.find B ∧
    Option.map transcript (((chat fresh apiKey llm (some A) msg store).2).find B) =
      Option.map transcript (store.find B) := by
  have h := chat_known_eq fresh apiKey llm A msg store histA hAne hA
  have hfind : ((chat fresh apiKey llm (some A) msg store).2).find B = store.find B := by
    rw [h]
    exact find_set_ne _ _ _ _ hAB
  exact ⟨hfind, by rw [hfind]⟩

/-- Witness for C9: two concrete registered sessions. -/
theorem C9_witness :
    ((chat "f" none (fun _ => "") (some "a") "Hi"
        [("a", []), ("b", [⟨"user", "x"⟩])]).2).find "b" =
      Store.find [("a", []), ("b", [⟨"user", "x"⟩])] "b" ∧
    Option.map transcript (((chat "f" none (fun _ => "") (some "a") "Hi"
        [("a", []), ("b", [⟨"user", "x"⟩])]).2).find "b") =
      Option.map transcript (Store.find [("a", []), ("b", [⟨"user", "x"⟩])] "b") :=
  C9_isolation "f" none (fun _ => "") "Hi" [("a", []), ("b", [⟨"user", "x"⟩])]
    "a" "b" (by decide) [] rfl (by decide)

/-! ### Alternation invariant (C10) -/

theorem alternating_append (m r : String) (h : History) :
    alternating (h ++ [⟨"user", m⟩, ⟨"assistant", r⟩]) = alternating h := by
  induction h using alternating.induct with
  | case1 => simp [alternating]
  | case2 u a rest hcond ih => simp [alternating, hcond, ih]
  | case3 u a rest hcond => simp [alternating, hcond]
  | case4 t h1 h2 =>
    rcases t with _ | ⟨x, _ | ⟨y, ys⟩⟩
    · exact absurd rfl h1
    · simp [alternating]
    · exact absurd rfl (h2 x y ys)

theorem find_set (s : Store) (key id : String) (v : History) :
    (s.set key v).find id = if key = id then some v else s.find id := by
  by_cases h : key = id
  · subst h
    simp [find_set_self]
  · simp [h, find_set_ne _ _ _ _ h]

/-- Claim C10: every completed chat call preserves the invariant that each
stored history has even length and strictly alternates roles starting with
"user" — the call appends exactly one user turn then one assistant turn to
the addressed (or newly created) session and touches nothing else. -/
theorem C10_alternating (fresh : String) (apiKey : Option String)
    (llm : History → String) (sid : Option String) (msg : String) (store : Store)
    (hstore : ∀ id h, store.find id = some h → alternating h = true) :
    ∀ id h, ((chat fresh apiKey llm sid msg store).2).find id = some h →
      alternating h = true := by
  intro id h hfind
  have hcreate : ∀ reply : String,
      (((store.set fresh []).set fresh
        [⟨"user", msg⟩, ⟨"assistant", reply⟩]).find id = some h) →
      alternating h = true := by
    intro reply hfind2
    rw [find_set, find_set] at hfind2
    by_cases hid : fresh = id
    · rw [if_pos hid, Option.some_inj] at hfind2
      subst hfind2
      simp [alternating]
    · rw [if_neg hid, if_neg hid] at hfind2
      exact hstore id h hfind2
  rcases sid with _ | s
  · have h2 : (chat fresh apiKey llm none msg store).2 =
        (store.set fresh []).set fresh [⟨"user", msg⟩,
          ⟨"assistant", generate_ai_reply apiKey llm [⟨"user", msg⟩]⟩] := by
      rw [chat_fresh_eq]
    rw [h2] at hfind
    exact hcreate _ hfind
  · by_cases h0 : s = ""
    · subst h0
      have heq : chat fresh apiKey llm (some "") msg store =
          chat fresh apiKey llm none msg store := by
        simp [chat, get_session]
      have h2 : (chat fresh apiKey llm (some "") msg store).2 =
          (store.set fresh []).set fresh [⟨"user", msg⟩,
            ⟨"assistant", generate_ai_reply apiKey llm [⟨"user", msg⟩]⟩] := by
        rw [heq, chat_fresh_eq]
      rw [h2] at hfind
      exact hcreate _ hfind
    · cases hf : store.find s with
      | none =>
        have heq : chat fresh apiKey llm (some s) msg store =
            chat fresh apiKey llm none msg store := by
          simp [chat, get_session, h0, hf]
        have h2 : (chat fresh apiKey llm (some s) msg store).2 =
            (store.set fresh []).set fresh [⟨"user", msg⟩,
              ⟨"assistant", generate_ai_reply apiKey llm [⟨"user", msg⟩]⟩] := by
          rw [heq, chat_fresh_eq]
        rw [h2] at hfind
        exact hcreate _ hfind
      | some histS =>
        have h2 : (chat fresh apiKey llm (some s) msg store).2 =
            store.set s (histS ++ [⟨"user", msg⟩,
              ⟨"assistant", generate_ai_reply apiKey llm
                (histS ++ [⟨"user", msg⟩])⟩]) := by
          rw [chat_known_eq fresh apiKey llm s msg store histS h0 hf]
        rw [h2, find_set] at hfind
        by_cases hid : s = id
        · rw [if_pos hid, Option.some_inj] at hfind
          subst hfind
          rw [alternating_append]
          exact hstore s histS hf
        · rw [if_neg hid] at hfind
          exact hstore id h hfind

/-- Witness for C10: one chat call on the empty store (which vacuously
satisfies the invariant) stores an alternating two-turn history. -/
theorem C10_witness :
    alternating [⟨"user", "Hi"⟩, ⟨"assistant", FALLBACK_REPLY⟩] = true :=
  C10_alternating "s1" none (fun _ => "") none "Hi" []
    (fun _ _ hfind => nomatch hfind) "s1"
    [⟨"user", "Hi"⟩, ⟨"assistant", FALLBACK_REPLY⟩] rfl

end Quiz
